import Mathlib

/-!
Shallow embedding of the barcode-encoding core of the `scanning` repository
(src/error.rs, src/sym.rs, src/sym/*.rs), together with theorems settling the
frozen claims about its specification.

Conventions of the embedding:
* Rust strings are `List Char`; `str::len` (a byte count) is `utf8Len`.
* Fallible Rust code returning `Result<T, Error>` becomes `Except Error T`.
* A Rust panic (`expect`, `panic!`, out-of-bounds indexing) is modelled by an
  outer `Option` layer: `none` is a panic, `some r` is a normal return of `r`.
* Machine integers stay `Nat`: every value involved (lengths up to a few
  hundred, digit values, checksum sums) is far below any relevant word size,
  except where noted (the `u32::try_from` length conversion is modelled
  explicitly).
-/

deriving instance DecidableEq for Except

namespace Scanning

/-- The error enum from src/error.rs. -/
inductive Error where
  | Character
  | Length
  | Generate
  | Checksum
  | Conversion
deriving DecidableEq

/-- Rust `core::ops::Range<u32>` as used by `Parse::valid_len`.  The field
`stop` models Rust's `end` (a Lean keyword).  `Parse::parse` compares both
bounds inclusively (`< start` / `> end`). -/
structure NatRange where
  start : Nat
  stop : Nat
deriving DecidableEq

/-- Byte count of one character in UTF-8, i.e. Rust `char::len_utf8`. -/
def charUtf8Size (c : Char) : Nat :=
  if c.toNat < 0x80 then 1
  else if c.toNat < 0x800 then 2
  else if c.toNat < 0x10000 then 3
  else 4

/-- Rust `str::len`: the UTF-8 byte length of a string. -/
def utf8Len (s : List Char) : Nat := (s.map charUtf8Size).sum

/-- The u32::MAX bound used by the `u32::try_from(data.len())` conversion in
`Parse::parse`. -/
def u32Max : Nat := 4294967295

/-- `Parse::parse` from src/sym.rs: convert the byte length to u32 (failure is
a Length error), reject lengths outside the inclusive `[valid_len.start,
valid_len.end]` range with Length, then reject the first character outside
`valid_chars` with Character. -/
def parseData (validChars : List Char) (validLen : NatRange) (data : List Char) :
    Except Error (List Char) :=
  if utf8Len data > u32Max then .error .Length
  else if utf8Len data < validLen.start ∨ utf8Len data > validLen.stop then .error .Length
  else
    match data.find? (fun c => !(validChars.contains c)) with
    | some _ => .error .Character
    | none => .ok data

/-- Modelled from the spec: `helpers::join_slices` lives in src/sym/helpers.rs,
which is not under src/; per the spec the encoded output "is a flat copy
assembled by concatenation" of the listed slices. -/
def join_slices (slices : List (List Nat)) : List Nat := slices.flatten

/-- Modelled from the spec: `helpers::join_iters` (src/sym/helpers.rs, not
under src/) concatenates a sequence of per-unit patterns, same as
`join_slices`. -/
def join_iters (slices : List (List Nat)) : List Nat := slices.flatten

/-- Rust `char::to_digit(10)`: `some` of the digit value for '0'..'9',
otherwise `none`. -/
def rustToDigit (c : Char) : Option Nat :=
  if c.isDigit then some (c.toNat - 48) else none

/-- Modelled from the spec: `helpers::modulo_10_checksum` lives in
src/sym/helpers.rs, which is not under src/.  The spec describes it as
alternating position weights of 3 and 1 (or 1 and 3, selected by a boolean
flag) summed and reduced mod 10; the complement-to-10 step (with 10 mapped to
0) and the flag direction (`even_start = true` weights the odd 0-based
positions by 3) are fixed by the in-repo EAN-13 and interleaved 2-of-5 encode
test vectors. -/
def modulo_10_checksum (data : List Nat) (even_start : Bool) : Nat :=
  let odds := ((data.enum.filter (fun p => p.1 % 2 = 1)).map Prod.snd).sum
  let evens := ((data.enum.filter (fun p => p.1 % 2 = 0)).map Prod.snd).sum
  let total := if even_start then evens + 3 * odds else 3 * evens + odds
  if 10 - total % 10 = 10 then 0 else 10 - total % 10

/-! ### Shared validation lemmas -/

theorem parseData_ok (validChars : List Char) (validLen : NatRange) (data : List Char)
    (hmax : utf8Len data ≤ u32Max)
    (hlo : validLen.start ≤ utf8Len data) (hhi : utf8Len data ≤ validLen.stop)
    (hchars : ∀ c ∈ data, validChars.contains c) :
    parseData validChars validLen data = .ok data := by
  unfold parseData
  rw [if_neg (by omega)]
  rw [if_neg (by omega)]
  have hfind : data.find? (fun c => !(validChars.contains c)) = none := by
    rw [List.find?_eq_none]
    intro c hc
    simpa using hchars c hc
  rw [hfind]

theorem parseData_len_err (validChars : List Char) (validLen : NatRange) (data : List Char)
    (h : utf8Len data < validLen.start ∨ utf8Len data > validLen.stop) :
    parseData validChars validLen data = .error .Length := by
  unfold parseData
  by_cases hmax : utf8Len data > u32Max
  · rw [if_pos hmax]
  · rw [if_neg hmax, if_pos h]

theorem parseData_char_err (validChars : List Char) (validLen : NatRange) (data : List Char)
    (hmax : utf8Len data ≤ u32Max)
    (hlo : validLen.start ≤ utf8Len data) (hhi : utf8Len data ≤ validLen.stop)
    (hbad : ∃ c ∈ data, ¬ validChars.contains c) :
    parseData validChars validLen data = .error .Character := by
  unfold parseData
  rw [if_neg (by omega)]
  rw [if_neg (by omega)]
  rcases hfind : data.find? (fun c => !(validChars.contains c)) with _ | c
  · exfalso
    rw [List.find?_eq_none] at hfind
    rcases hbad with ⟨c, hc, hbadc⟩
    exact hbadc (by simpa using hfind c hc)
  · rfl

/-! ### Codabar (src/sym/codabar.rs) -/

/-- The `Unit` enum from src/sym/codabar.rs. -/
inductive CodabarUnit where
  | Zero | One | Two | Three | Four | Five | Six | Seven | Eight | Nine
  | Dash | Dollar | Colon | Slash | Point | Plus | A | B | C | D
deriving DecidableEq

/-- `Unit::lookup` from src/sym/codabar.rs. -/
def CodabarUnit.lookup : CodabarUnit → List Nat
  | .Zero => [1, 0, 1, 0, 1, 0, 0, 1, 1]
  | .One => [1, 0, 1, 0, 1, 1, 0, 0, 1]
  | .Two => [1, 0, 1, 0, 0, 1, 0, 1, 1]
  | .Three => [1, 1, 0, 0, 1, 0, 1, 0, 1]
  | .Four => [1, 0, 1, 1, 0, 1, 0, 0, 1]
  | .Five => [1, 1, 0, 1, 0, 1, 0, 0, 1]
  | .Six => [1, 0, 0, 1, 0, 1, 0, 1, 1]
  | .Seven => [1, 0, 0, 1, 0, 1, 1, 0, 1]
  | .Eight => [1, 0, 0, 1, 1, 0, 1, 0, 1]
  | .Nine => [1, 1, 0, 1, 0, 0, 1, 0, 1]
  | .Dash => [1, 0, 1, 0, 0, 1, 1, 0, 1]
  | .Dollar => [1, 0, 1, 1, 0, 0, 1, 0, 1]
  | .Colon => [1, 1, 0, 1, 0, 1, 1, 0, 1, 1]
  | .Slash => [1, 1, 0, 1, 1, 0, 1, 0, 1, 1]
  | .Point => [1, 1, 0, 1, 1, 0, 1, 1, 0, 1]
  | .Plus => [1, 0, 1, 1, 0, 0, 1, 1, 0, 0, 1, 1]
  | .A => [1, 0, 1, 1, 0, 0, 1, 0, 0, 1]
  | .B => [1, 0, 1, 0, 0, 1, 0, 0, 1, 1]
  | .C => [1, 0, 0, 1, 0, 0, 1, 0, 1, 1]
  | .D => [1, 0, 1, 0, 0, 1, 1, 0, 0, 1]

/-- `Unit::from_char` from src/sym/codabar.rs. -/
def CodabarUnit.from_char : Char → Option CodabarUnit
  | '0' => some .Zero
  | '1' => some .One
  | '2' => some .Two
  | '3' => some .Three
  | '4' => some .Four
  | '5' => some .Five
  | '6' => some .Six
  | '7' => some .Seven
  | '8' => some .Eight
  | '9' => some .Nine
  | '-' => some .Dash
  | '$' => some .Dollar
  | '/' => some .Slash
  | ':' => some .Colon
  | '.' => some .Point
  | '+' => some .Plus
  | 'A' => some .A
  | 'B' => some .B
  | 'C' => some .C
  | 'D' => some .D
  | _ => none

/-- The `Codabar` tuple struct (holds the parsed units). -/
structure Codabar where
  units : List CodabarUnit
deriving DecidableEq

/-- `<Codabar as Parse>::valid_len`: `1..256`. -/
def Codabar.valid_len : NatRange := ⟨1, 256⟩

/-- `<Codabar as Parse>::valid_chars`. -/
def Codabar.valid_chars : List Char :=
  ['0', '1', '2', '3', '4', '5', '6', '7', '8', '9', '-', '/', '.', ':', '+', '$', 'A',
   'B', 'C', 'D']

/-- `Codabar::new`: shared parse, then map each character through
`Unit::from_char` (an unmapped character is a Character error). -/
def Codabar.new (data : List Char) : Except Error Codabar :=
  match parseData Codabar.valid_chars Codabar.valid_len data with
  | .error e => .error e
  | .ok d =>
    match d.mapM (fun c =>
      match CodabarUnit.from_char c with
      | some u => Except.ok u
      | none => Except.error Error.Character) with
    | .error e => .error e
    | .ok units => .ok ⟨units⟩

/-- `Codabar::encode`: each unit's pattern, with a single 0 pushed after every
unit except the last. -/
def Codabar.encode (b : Codabar) : List Nat :=
  b.units.enum.foldl
    (fun enc iu =>
      enc ++ iu.2.lookup ++ (if iu.1 < b.units.length - 1 then [0] else [])) []

/-- Rendering of a bit sequence as the claims state it: bit 1 written as '1',
bit 0 as '0'. -/
def collapseBits (v : List Nat) : String :=
  ⟨v.map (fun d => if d = 1 then '1' else '0')⟩

theorem codabar_valid_char_ascii (c : Char) (h : Codabar.valid_chars.contains c) :
    charUtf8Size c = 1 ∧ (CodabarUnit.from_char c).isSome := by
  have hm : c ∈ Codabar.valid_chars := by simpa using h
  simp only [Codabar.valid_chars, List.mem_cons, List.not_mem_nil, or_false] at hm
  rcases hm with rfl | rfl | rfl | rfl | rfl | rfl | rfl | rfl | rfl | rfl | rfl | rfl | rfl |
    rfl | rfl | rfl | rfl | rfl | rfl | rfl
  all_goals exact ⟨by decide, by decide⟩

theorem mapM_fromChar_ok (d : List Char) (h : ∀ c ∈ d, (CodabarUnit.from_char c).isSome) :
    ∃ us, d.mapM (fun c =>
      match CodabarUnit.from_char c with
      | some u => Except.ok (ε := Error) u
      | none => Except.error Error.Character) = .ok us := by
  induction d with
  | nil => exact ⟨[], rfl⟩
  | cons c cs ih =>
    have hc := h c (List.mem_cons_self c cs)
    rcases hu : CodabarUnit.from_char c with _ | u
    · rw [hu] at hc; simp at hc
    · rcases ih (fun x hx => h x (List.mem_cons_of_mem c hx)) with ⟨us, hus⟩
      refine ⟨u :: us, ?_⟩
      rw [List.mapM_cons]
      simp only [hu, hus]
      rfl

theorem utf8Len_of_all_ascii (d : List Char) (h : ∀ c ∈ d, charUtf8Size c = 1) :
    utf8Len d = d.length := by
  induction d with
  | nil => rfl
  | cons c cs ih =>
    have : utf8Len (c :: cs) = charUtf8Size c + utf8Len cs := by
      simp [utf8Len]
    rw [this, h c (List.mem_cons_self c cs),
      ih (fun x hx => h x (List.mem_cons_of_mem c hx))]
    simp only [List.length_cons]
    omega

set_option maxRecDepth 8192 in
/-- Claim C8 counterexample: a string of 256 valid characters is accepted by
`Codabar::new`, so "every string of 256 or more characters is rejected with
Error::Length" is false: `valid_len` is `1..256` and `Parse::parse` treats the
range end inclusively. -/
theorem codabar_256_accepted :
    Codabar.new (List.replicate 256 '1') = .ok ⟨List.replicate 256 .One⟩ := by
  decide

/-- Claim C8 (amended): the accepted Codabar input lengths are exactly the
inclusive range 1..=256: the empty string is rejected with Error::Length, every
string of 1 to 256 valid characters is accepted, and every input of 257 or
more bytes is rejected with Error::Length. -/
theorem codabar_length_range :
    Codabar.new [] = .error .Length ∧
    (∀ data : List Char, 1 ≤ data.length → data.length ≤ 256 →
      (∀ c ∈ data, Codabar.valid_chars.contains c) →
      ∃ b, Codabar.new data = .ok b) ∧
    (∀ data : List Char, 257 ≤ utf8Len data → Codabar.new data = .error .Length) := by
  refine ⟨by decide, ?_, ?_⟩
  · intro data h1 h2 hv
    have hlen : utf8Len data = data.length :=
      utf8Len_of_all_ascii data (fun c hc => (codabar_valid_char_ascii c (hv c hc)).1)
    have hp : parseData Codabar.valid_chars Codabar.valid_len data = .ok data := by
      refine parseData_ok _ _ _ ?_ ?_ ?_ hv
      · rw [hlen]; unfold u32Max; omega
      · show Codabar.valid_len.start ≤ utf8Len data
        rw [hlen]; exact h1
      · show utf8Len data ≤ Codabar.valid_len.stop
        rw [hlen]; exact h2
    rcases mapM_fromChar_ok data
        (fun c hc => (codabar_valid_char_ascii c (hv c hc)).2) with ⟨us, hus⟩
    refine ⟨⟨us⟩, ?_⟩
    unfold Codabar.new
    rw [hp]
    dsimp only
    rw [hus]
  · intro data h
    have hp : parseData Codabar.valid_chars Codabar.valid_len data = .error .Length := by
      refine parseData_len_err _ _ _ ?_
      right
      show 256 < utf8Len data
      omega
    unfold Codabar.new
    rw [hp]

set_option maxRecDepth 8192 in
/-- Witness for claim C8's amended theorem: the one-character input "A" is
accepted and a 257-character input is rejected with Error::Length. -/
theorem codabar_length_range_witness :
    (∃ b, Codabar.new ['A'] = .ok b) ∧
    Codabar.new (List.replicate 257 '1') = .error .Length := by
  refine ⟨codabar_length_range.2.1 ['A'] (by decide) (by decide) (by decide), ?_⟩
  exact codabar_length_range.2.2 (List.replicate 257 '1') (by decide)

/-- Claim C9: `Codabar::new("A1234B")` succeeds and its `encode()` output,
rendered with bit 1 as '1' and bit 0 as '0', is the known vector
"1011001001010101100101010010110110010101010110100101010010011" (unit patterns
joined by single 0 gaps, no framing added). -/
theorem codabar_known_vector :
    Except.map (fun b => collapseBits (Codabar.encode b)) (Codabar.new ("A1234B".toList)) =
      .ok "1011001001010101100101010010110110010101010110100101010010011" := by
  decide

/-! ### Code93 (src/sym/code93.rs) -/

/-- The 47-entry character table `CHARS` from src/sym/code93.rs. -/
def Code93.CHARS : List (Char × List Nat) :=
  [('0', [1, 0, 0, 0, 1, 0, 1, 0, 0]),
   ('1', [1, 0, 1, 0, 0, 1, 0, 0, 0]),
   ('2', [1, 0, 1, 0, 0, 0, 1, 0, 0]),
   ('3', [1, 0, 1, 0, 0, 0, 0, 1, 0]),
   ('4', [1, 0, 0, 1, 0, 1, 0, 0, 0]),
   ('5', [1, 0, 0, 1, 0, 0, 1, 0, 0]),
   ('6', [1, 0, 0, 1, 0, 0, 0, 1, 0]),
   ('7', [1, 0, 1, 0, 1, 0, 0, 0, 0]),
   ('8', [1, 0, 0, 0, 1, 0, 0, 1, 0]),
   ('9', [1, 0, 0, 0, 0, 1, 0, 1, 0]),
   ('A', [1, 1, 0, 1, 0, 1, 0, 0, 0]),
   ('B', [1, 1, 0, 1, 0, 0, 1, 0, 0]),
   ('C', [1, 1, 0, 1, 0, 0, 0, 1, 0]),
   ('D', [1, 1, 0, 0, 1, 0, 1, 0, 0]),
   ('E', [1, 1, 0, 0, 1, 0, 0, 1, 0]),
   ('F', [1, 1, 0, 0, 0, 1, 0, 1, 0]),
   ('G', [1, 0, 1, 1, 0, 1, 0, 0, 0]),
   ('H', [1, 0, 1, 1, 0, 0, 1, 0, 0]),
   ('I', [1, 0, 1, 1, 0, 0, 0, 1, 0]),
   ('J', [1, 0, 0, 1, 1, 0, 1, 0, 0]),
   ('K', [1, 0, 0, 0, 1, 1, 0, 1, 0]),
   ('L', [1, 0, 1, 0, 1, 1, 0, 0, 0]),
   ('M', [1, 0, 1, 0, 0, 1, 1, 0, 0]),
   ('N', [1, 0, 1, 0, 0, 0, 1, 1, 0]),
   ('O', [1, 0, 0, 1, 0, 1, 1, 0, 0]),
   ('P', [1, 0, 0, 0, 1, 0, 1, 1, 0]),
   ('Q', [1, 1, 0, 1, 1, 0, 1, 0, 0]),
   ('R', [1, 1, 0, 1, 1, 0, 0, 1, 0]),
   ('S', [1, 1, 0, 1, 0, 1, 1, 0, 0]),
   ('T', [1, 1, 0, 1, 0, 0, 1, 1, 0]),
   ('U', [1, 1, 0, 0, 1, 0, 1, 1, 0]),
   ('V', [1, 1, 0, 0, 1, 1, 0, 1, 0]),
   ('W', [1, 0, 1, 1, 0, 1, 1, 0, 0]),
   ('X', [1, 0, 1, 1, 0, 0, 1, 1, 0]),
   ('Y', [1, 0, 0, 1, 1, 0, 1, 1, 0]),
   ('Z', [1, 0, 0, 1, 1, 1, 0, 1, 0]),
   ('-', [1, 0, 0, 1, 0, 1, 1, 1, 0]),
   ('.', [1, 1, 1, 0, 1, 0, 1, 0, 0]),
   (' ', [1, 1, 1, 0, 1, 0, 0, 1, 0]),
   ('$', [1, 1, 1, 0, 0, 1, 0, 1, 0]),
   ('/', [1, 0, 1, 1, 0, 1, 1, 1, 0]),
   ('+', [1, 0, 1, 1, 1, 0, 1, 1, 0]),
   ('%', [1, 1, 0, 1, 0, 1, 1, 1, 0]),
   ('(', [1, 0, 0, 1, 0, 0, 1, 1, 0]),
   (')', [1, 1, 1, 0, 1, 1, 0, 1, 0]),
   ('[', [1, 1, 1, 0, 1, 0, 1, 1, 0]),
   (']', [1, 0, 0, 1, 1, 0, 0, 1, 0])]

/-- The Code93 guard pattern. -/
def Code93.GUARD : List Nat := [1, 0, 1, 0, 1, 1, 1, 1, 0]

/-- The Code93 terminator bit. -/
def Code93.TERMINATOR : List Nat := [1]

/-- The `Code93` tuple struct (holds the parsed characters). -/
structure Code93 where
  data : List Char
deriving DecidableEq

/-- `<Code93 as Parse>::valid_len`: `1..256`. -/
def Code93.valid_len : NatRange := ⟨1, 256⟩

/-- `<Code93 as Parse>::valid_chars`: the first components of `CHARS`. -/
def Code93.valid_chars : List Char := Code93.CHARS.map Prod.fst

/-- `Code93::new`: the parse Result is fed through
`.expect("Failed to parse input data")`, so a parse failure PANICS (`none`)
instead of being returned; on success the result is always `Ok`. -/
def Code93.new (data : List Char) : Option (Except Error Code93) :=
  match parseData Code93.valid_chars Code93.valid_len data with
  | .ok d => some (.ok ⟨d⟩)
  | .error _ => none

/-- `Code93::char_encoding`; an unknown character panics (`none`). -/
def Code93.char_encoding (c : Char) : Option (List Nat) :=
  match Code93.CHARS.find? (fun t => t.1 == c) with
  | some t => some t.2
  | none => none

/-- The `get_char_pos` closure of `Code93::checksum_char`; the missing-entry
panic is `none`. -/
def Code93.char_pos (c : Char) : Option Nat :=
  Code93.CHARS.findIdx? (fun t => t.1 == c)

/-- The `weight` closure of `Code93::checksum_char`. -/
def Code93.weight (dataLen t i : Nat) : Nat :=
  if (dataLen - i) % t = 0 then t else (dataLen - i) % t

/-- `Code93::checksum_char` (weighted modulo-47).  The inner position lookup's
panic and the function's own `Option` result are both threaded as `none`; every
caller turns either into a panic with `.expect`, so they are observationally
identical. -/
def Code93.checksum_char (data : List Char) (t : Nat) : Option Char :=
  match data.mapM Code93.char_pos with
  | none => none
  | some ps =>
    let index := ps.enum.foldl
      (fun acc ip => acc + Code93.weight data.length t ip.1 * ip.2) 0
    (Code93.CHARS.get? (index % Code93.CHARS.length)).map Prod.fst

/-- `Code93::c_checksum_char`: weight threshold 20. -/
def Code93.c_checksum_char (data : List Char) : Option Char :=
  Code93.checksum_char data 20

/-- `Code93::k_checksum_char`: over data plus the C checksum, threshold 15. -/
def Code93.k_checksum_char (data : List Char) (c_checksum : Char) : Option Char :=
  Code93.checksum_char (data ++ [c_checksum]) 15

/-- `Code93::payload`: C checksum, K checksum, the character encodings, then
the two checksum encodings; any `expect`/panic is `none`. -/
def Code93.payload (b : Code93) : Option (List Nat) :=
  match Code93.c_checksum_char b.data with
  | none => none
  | some c =>
    match Code93.k_checksum_char b.data c with
    | none => none
    | some k =>
      match b.data.mapM Code93.char_encoding with
      | none => none
      | some body =>
        match Code93.char_encoding c, Code93.char_encoding k with
        | some ce, some ke => some (body.flatten ++ ce ++ ke)
        | _, _ => none

/-- `Code93::encode`: guard, payload, guard, terminator. -/
def Code93.encode (b : Code93) : Option (List Nat) :=
  match Code93.payload b with
  | none => none
  | some p => some (join_slices [Code93.GUARD, p, Code93.GUARD, Code93.TERMINATOR])

/-- Claim C1 (code bug): `Code93::new` does NOT return the validation failure:
its body wraps the parse Result in `.expect(...)`, so it panics (modelled as
`none`) on every invalid input, while the shared validator does produce the
Length/Character errors that the claim, the function's doc comment and the
module's own tests (`invalid_length_code93`, `invalid_data_code93`) expect to
be returned. -/
theorem code93_new_panics_on_invalid :
    Code93.new [] = none ∧
    parseData Code93.valid_chars Code93.valid_len [] = .error .Length ∧
    Code93.new ['a'] = none ∧
    parseData Code93.valid_chars Code93.valid_len ['a'] = .error .Character := by
  refine ⟨rfl, rfl, ?_, ?_⟩ <;> decide

/-- Claim C2: the shared validator checks length before character membership:
an input whose byte length is outside the accepted inclusive range is rejected
with Error::Length regardless of its characters, and an input of acceptable
length containing a character outside the alphabet is rejected with
Error::Character. -/
theorem parse_length_before_character (validChars : List Char) (validLen : NatRange)
    (data : List Char) :
    (utf8Len data < validLen.start ∨ validLen.stop < utf8Len data →
      parseData validChars validLen data = .error .Length) ∧
    (utf8Len data ≤ u32Max → validLen.start ≤ utf8Len data → utf8Len data ≤ validLen.stop →
      (∃ c ∈ data, ¬ validChars.contains c) →
      parseData validChars validLen data = .error .Character) := by
  constructor
  · intro h
    exact parseData_len_err validChars validLen data h
  · intro hmax hlo hhi hbad
    exact parseData_char_err validChars validLen data hmax hlo hhi hbad

/-- Witness for claim C2: over the alphabet `['0']` with accepted lengths 1..2,
the three-character input "xxx" (too long AND full of bad characters) is
rejected with Length, while the one-character input "x" is rejected with
Character. -/
theorem parse_length_before_character_witness :
    parseData ['0'] ⟨1, 2⟩ ['x', 'x', 'x'] = .error .Length ∧
    parseData ['0'] ⟨1, 2⟩ ['x'] = .error .Character := by
  constructor
  · exact (parse_length_before_character ['0'] ⟨1, 2⟩ ['x', 'x', 'x']).1 (by right; decide)
  · exact (parse_length_before_character ['0'] ⟨1, 2⟩ ['x']).2 (by decide) (by decide) (by decide)
      ⟨'x', by decide, by decide⟩

/-! ### EAN-13 (src/sym/ean13.rs) -/

/-- `ENCODINGS` from src/sym/ean13.rs: left side A (odd parity), left side B
(even parity), right side. -/
def EAN13.ENCODINGS : List (List (List Nat)) :=
  [[[0, 0, 0, 1, 1, 0, 1],
    [0, 0, 1, 1, 0, 0, 1],
    [0, 0, 1, 0, 0, 1, 1],
    [0, 1, 1, 1, 1, 0, 1],
    [0, 1, 0, 0, 0, 1, 1],
    [0, 1, 1, 0, 0, 0, 1],
    [0, 1, 0, 1, 1, 1, 1],
    [0, 1, 1, 1, 0, 1, 1],
    [0, 1, 1, 0, 1, 1, 1],
    [0, 0, 0, 1, 0, 1, 1]],
   [[0, 1, 0, 0, 1, 1, 1],
    [0, 1, 1, 0, 0, 1, 1],
    [0, 0, 1, 1, 0, 1, 1],
    [0, 1, 0, 0, 0, 0, 1],
    [0, 0, 1, 1, 1, 0, 1],
    [0, 1, 1, 1, 0, 0, 1],
    [0, 0, 0, 0, 1, 0, 1],
    [0, 0, 1, 0, 0, 0, 1],
    [0, 0, 0, 1, 0, 0, 1],
    [0, 0, 1, 0, 1, 1, 1]],
   [[1, 1, 1, 0, 0, 1, 0],
    [1, 1, 0, 0, 1, 1, 0],
    [1, 1, 0, 1, 1, 0, 0],
    [1, 0, 0, 0, 0, 1, 0],
    [1, 0, 1, 1, 1, 0, 0],
    [1, 0, 0, 1, 1, 1, 0],
    [1, 0, 1, 0, 0, 0, 0],
    [1, 0, 0, 0, 1, 0, 0],
    [1, 0, 0, 1, 0, 0, 0],
    [1, 1, 1, 0, 1, 0, 0]]]

/-- `PARITY` from src/sym/ean13.rs: left-side parity selection by the first
digit. -/
def EAN13.PARITY : List (List Nat) :=
  [[0, 0, 0, 0, 0],
   [0, 1, 0, 1, 1],
   [0, 1, 1, 0, 1],
   [0, 1, 1, 1, 0],
   [1, 0, 0, 1, 1],
   [1, 1, 0, 0, 1],
   [1, 1, 1, 0, 0],
   [1, 0, 1, 0, 1],
   [1, 0, 1, 1, 0],
   [1, 1, 0, 1, 0]]

/-- The left-hand guard pattern. -/
def EAN13.LEFT_GUARD : List Nat := [1, 0, 1]

/-- The middle guard pattern. -/
def EAN13.MIDDLE_GUARD : List Nat := [0, 1, 0, 1, 0]

/-- The right-hand guard pattern. -/
def EAN13.RIGHT_GUARD : List Nat := [1, 0, 1]

/-- The `EAN13` tuple struct: the twelve stored data digits. -/
structure EAN13 where
  digits : List Nat
deriving DecidableEq

/-- `<EAN13 as Parse>::valid_len`: `12..13` (both 12 and 13 accepted, since
`Parse::parse` treats the end inclusively). -/
def EAN13.valid_len : NatRange := ⟨12, 13⟩

/-- `<EAN13 as Parse>::valid_chars`: the decimal digits, produced with
`char::from_digit` over `0..10` (the `expect` there cannot fail for radix-10
digits). -/
def EAN13.valid_chars : List Char := (List.range 10).map (fun i => Char.ofNat (48 + i))

/-- `EAN13::checksum_digit`: the shared modulo-10 helper with `even_start =
true`. -/
def EAN13.checksum_digit (e : EAN13) : Nat := modulo_10_checksum e.digits true

/-- `EAN13::new`: shared parse, digit conversion (`expect` on `to_digit` is a
panic, `none`), store the first twelve digits (slicing panics below length
12), and if a thirteenth digit was supplied compare it with the computed check
digit (mismatch is Error::Checksum). -/
def EAN13.new (data : List Char) : Option (Except Error EAN13) :=
  match parseData EAN13.valid_chars EAN13.valid_len data with
  | .error e => some (.error e)
  | .ok d =>
    match d.mapM rustToDigit with
    | none => none
    | some digits =>
      if digits.length < 12 then none
      else
        let ean13 : EAN13 := ⟨digits.take 12⟩
        if digits.length = 13 ∧ EAN13.checksum_digit ean13 ≠ digits.getD 12 0 then
          some (.error .Checksum)
        else some (.ok ean13)

/-- `EAN13::char_encoding`: `ENCODINGS[side][d]`; out-of-bounds indexing is a
panic (`none`). -/
def EAN13.char_encoding (side d : Nat) : Option (List Nat) :=
  match EAN13.ENCODINGS.get? side with
  | none => none
  | some tbl => tbl.get? d

/-- `EAN13::number_system_digit`: `self.0[1]`. -/
def EAN13.number_system_digit (e : EAN13) : Option Nat := e.digits.get? 1

/-- `EAN13::number_system_encoding`. -/
def EAN13.number_system_encoding (e : EAN13) : Option (List Nat) :=
  match EAN13.number_system_digit e with
  | none => none
  | some d => EAN13.char_encoding 0 d

/-- `EAN13::checksum_encoding`. -/
def EAN13.checksum_encoding (e : EAN13) : Option (List Nat) :=
  EAN13.char_encoding 2 (EAN13.checksum_digit e)

/-- `EAN13::left_digits`: `self.0[2..7]` (panics below length 7). -/
def EAN13.left_digits (e : EAN13) : Option (List Nat) :=
  if 7 ≤ e.digits.length then some ((e.digits.drop 2).take 5) else none

/-- `EAN13::right_digits`: `self.0[7..]` (panics below length 7). -/
def EAN13.right_digits (e : EAN13) : Option (List Nat) :=
  if 7 ≤ e.digits.length then some (e.digits.drop 7) else none

/-- `EAN13::parity_mapping`: `PARITY[self.0[0]]`. -/
def EAN13.parity_mapping (e : EAN13) : Option (List Nat) :=
  match e.digits.get? 0 with
  | none => none
  | some d => EAN13.PARITY.get? d

/-- `EAN13::left_payload`: left digits zipped with the parity mapping, each
encoded on the selected left side. -/
def EAN13.left_payload (e : EAN13) : Option (List Nat) :=
  match EAN13.left_digits e, EAN13.parity_mapping e with
  | some lds, some par =>
    match (lds.zip par).mapM (fun p => EAN13.char_encoding p.2 p.1) with
    | some slices => some (join_iters slices)
    | none => none
  | _, _ => none

/-- `EAN13::right_payload`: right digits encoded on the right side. -/
def EAN13.right_payload (e : EAN13) : Option (List Nat) :=
  match EAN13.right_digits e with
  | some rds =>
    match rds.mapM (fun d => EAN13.char_encoding 2 d) with
    | some slices => some (join_iters slices)
    | none => none
  | none => none

/-- `EAN13::encode`: left guard, number-system encoding, left payload, middle
guard, right payload, checksum encoding, right guard. -/
def EAN13.encode (e : EAN13) : Option (List Nat) :=
  match EAN13.number_system_encoding e with
  | none => none
  | some ns =>
    match EAN13.left_payload e with
    | none => none
    | some lp =>
      match EAN13.right_payload e with
      | none => none
      | some rp =>
        match EAN13.checksum_encoding e with
        | none => none
        | some ce =>
          some (join_slices
            [EAN13.LEFT_GUARD, ns, lp, EAN13.MIDDLE_GUARD, rp, ce, EAN13.RIGHT_GUARD])

/-- Claim C3 counterexample: the check digit computed for
`EAN13::new("750103131130")` is 9, not 5, and construction with the thirteenth
digit 5 fails with Error::Checksum (the repo's own `ean13_encode` test vector
encodes check digit 9; its "Check digit: 5" comment is wrong). -/
theorem ean13_check_digit_is_nine_not_five :
    EAN13.checksum_digit ⟨[7, 5, 0, 1, 0, 3, 1, 3, 1, 1, 3, 0]⟩ = 9 ∧
    EAN13.new ("7501031311305".toList) = some (.error .Checksum) := by
  decide

/-- Claim C3 (amended): `EAN13::new("750103131130")` succeeds and the check
digit computed for that instance equals 9; for the same twelve digits followed
by a thirteenth digit, construction succeeds when that digit is 9 and returns
Err(Error::Checksum) for every other thirteenth digit. -/
theorem ean13_checksum_behaviour :
    EAN13.new ("750103131130".toList) = some (.ok ⟨[7, 5, 0, 1, 0, 3, 1, 3, 1, 1, 3, 0]⟩) ∧
    EAN13.checksum_digit ⟨[7, 5, 0, 1, 0, 3, 1, 3, 1, 1, 3, 0]⟩ = 9 ∧
    EAN13.new ("7501031311309".toList) = some (.ok ⟨[7, 5, 0, 1, 0, 3, 1, 3, 1, 1, 3, 0]⟩) ∧
    EAN13.new ("7501031311300".toList) = some (.error .Checksum) ∧
    EAN13.new ("7501031311301".toList) = some (.error .Checksum) ∧
    EAN13.new ("7501031311302".toList) = some (.error .Checksum) ∧
    EAN13.new ("7501031311303".toList) = some (.error .Checksum) ∧
    EAN13.new ("7501031311304".toList) = some (.error .Checksum) ∧
    EAN13.new ("7501031311305".toList) = some (.error .Checksum) ∧
    EAN13.new ("7501031311306".toList) = some (.error .Checksum) ∧
    EAN13.new ("7501031311307".toList) = some (.error .Checksum) ∧
    EAN13.new ("7501031311308".toList) = some (.error .Checksum) := by
  decide

/-! ### Code39 (src/sym/code39.rs) -/

/-- The 43-entry character table `CHARS` from src/sym/code39.rs. -/
def Code39.CHARS : List (Char × List Nat) :=
  [('0', [1, 0, 1, 0, 0, 1, 1, 0, 1, 1, 0, 1]),
   ('1', [1, 1, 0, 1, 0, 0, 1, 0, 1, 0, 1, 1]),
   ('2', [1, 0, 1, 1, 0, 0, 1, 0, 1, 0, 1, 1]),
   ('3', [1, 1, 0, 1, 1, 0, 0, 1, 0, 1, 0, 1]),
   ('4', [1, 0, 1, 0, 0, 1, 1, 0, 1, 0, 1, 1]),
   ('5', [1, 1, 0, 1, 0, 0, 1, 1, 0, 1, 0, 1]),
   ('6', [1, 0, 1, 1, 0, 0, 1, 1, 0, 1, 0, 1]),
   ('7', [1, 0, 1, 0, 0, 1, 0, 1, 1, 0, 1, 1]),
   ('8', [1, 1, 0, 1, 0, 0, 1, 0, 1, 1, 0, 1]),
   ('9', [1, 0, 1, 1, 0, 0, 1, 0, 1, 1, 0, 1]),
   ('A', [1, 1, 0, 1, 0, 1, 0, 0, 1, 0, 1, 1]),
   ('B', [1, 0, 1, 1, 0, 1, 0, 0, 1, 0, 1, 1]),
   ('C', [1, 1, 0, 1, 1, 0, 1, 0, 0, 1, 0, 1]),
   ('D', [1, 0, 1, 0, 1, 1, 0, 0, 1, 0, 1, 1]),
   ('E', [1, 1, 0, 1, 0, 1, 1, 0, 0, 1, 0, 1]),
   ('F', [1, 0, 1, 1, 0, 1, 1, 0, 0, 1, 0, 1]),
   ('G', [1, 0, 1, 0, 1, 0, 0, 1, 1, 0, 1, 1]),
   ('H', [1, 1, 0, 1, 0, 1, 0, 0, 1, 1, 0, 1]),
   ('I', [1, 0, 1, 1, 0, 1, 0, 0, 1, 1, 0, 1]),
   ('J', [1, 0, 1, 0, 1, 1, 0, 0, 1, 1, 0, 1]),
   ('K', [1, 1, 0, 1, 0, 1, 0, 1, 0, 0, 1, 1]),
   ('L', [1, 0, 1, 1, 0, 1, 0, 1, 0, 0, 1, 1]),
   ('M', [1, 1, 0, 1, 1, 0, 1, 0, 1, 0, 0, 1]),
   ('N', [1, 0, 1, 0, 1, 1, 0, 1, 0, 0, 1, 1]),
   ('O', [1, 1, 0, 1, 0, 1, 1, 0, 1, 0, 0, 1]),
   ('P', [1, 0, 1, 1, 0, 1, 1, 0, 1, 0, 0, 1]),
   ('Q', [1, 0, 1, 0, 1, 0, 1, 1, 0, 0, 1, 1]),
   ('R', [1, 1, 0, 1, 0, 1, 0, 1, 1, 0, 0, 1]),
   ('S', [1, 0, 1, 1, 0, 1, 0, 1, 1, 0, 0, 1]),
   ('T', [1, 0, 1, 0, 1, 1, 0, 1, 1, 0, 0, 1]),
   ('U', [1, 1, 0, 0, 1, 0, 1, 0, 1, 0, 1, 1]),
   ('V', [1, 0, 0, 1, 1, 0, 1, 0, 1, 0, 1, 1]),
   ('W', [1, 1, 0, 0, 1, 1, 0, 1, 0, 1, 0, 1]),
   ('X', [1, 0, 0, 1, 0, 1, 1, 0, 1, 0, 1, 1]),
   ('Y', [1, 1, 0, 0, 1, 0, 1, 1, 0, 1, 0, 1]),
   ('Z', [1, 0, 0, 1, 1, 0, 1, 1, 0, 1, 0, 1]),
   ('-', [1, 0, 0, 1, 0, 1, 0, 1, 1, 0, 1, 1]),
   ('.', [1, 1, 0, 0, 1, 0, 1, 0, 1, 1, 0, 1]),
   (' ', [1, 0, 0, 1, 1, 0, 1, 0, 1, 1, 0, 1]),
   ('$', [1, 0, 0, 1, 0, 0, 1, 0, 0, 1, 0, 1]),
   ('/', [1, 0, 0, 1, 0, 0, 1, 0, 1, 0, 0, 1]),
   ('+', [1, 0, 0, 1, 0, 1, 0, 0, 1, 0, 0, 1]),
   ('%', [1, 0, 1, 0, 0, 1, 0, 0, 1, 0, 0, 1])]

/-- The Code39 guard pattern (the '*' character). -/
def Code39.GUARD : List Nat := [1, 0, 0, 1, 0, 1, 1, 0, 1, 1, 0, 1]

/-- The `Code39` struct: data characters plus the checksum opt-in flag. -/
structure Code39 where
  data : List Char
  checksum : Bool
deriving DecidableEq

/-- `<Code39 as Parse>::valid_len`: `1..256`. -/
def Code39.valid_len : NatRange := ⟨1, 256⟩

/-- `<Code39 as Parse>::valid_chars`. -/
def Code39.valid_chars : List Char := Code39.CHARS.map Prod.fst

/-- `Code39::init`. -/
def Code39.init (data : List Char) (checksum : Bool) : Except Error Code39 :=
  match parseData Code39.valid_chars Code39.valid_len data with
  | .error e => .error e
  | .ok d => .ok ⟨d, checksum⟩

/-- `Code39::new`: no checksum. -/
def Code39.new (data : List Char) : Except Error Code39 := Code39.init data false

/-- `Code39::with_checksum`. -/
def Code39.with_checksum (data : List Char) : Except Error Code39 := Code39.init data true

/-- `Code39::char_encoding`; an unknown character panics (`none`). -/
def Code39.char_encoding (c : Char) : Option (List Nat) :=
  match Code39.CHARS.find? (fun t => t.1 == c) with
  | some t => some t.2
  | none => none

/-- The `get_char_pos` closure of `Code39::checksum_char` (panic is `none`). -/
def Code39.char_pos (c : Char) : Option Nat :=
  Code39.CHARS.findIdx? (fun t => t.1 == c)

/-- `Code39::checksum_char`: plain modulo-43 over the table positions. -/
def Code39.checksum_char (b : Code39) : Option Char :=
  match b.data.mapM Code39.char_pos with
  | none => none
  | some ps => (Code39.CHARS.get? (ps.sum % Code39.CHARS.length)).map Prod.fst

/-- `Code39::checksum_encoding` (a missing checksum char panics). -/
def Code39.checksum_encoding (b : Code39) : Option (List Nat) :=
  match Code39.checksum_char b with
  | none => none
  | some c => Code39.char_encoding c

/-- `Code39::payload`: a leading 0, each character's pattern followed by a
0 gap, and the checksum pattern (plus gap) when the flag is set. -/
def Code39.payload (b : Code39) : Option (List Nat) :=
  match b.data.mapM Code39.char_encoding with
  | none => none
  | some body =>
    let enc := [0] ++ (body.map (fun e => e ++ [0])).flatten
    if b.checksum then
      match Code39.checksum_encoding b with
      | none => none
      | some ce => some (enc ++ ce ++ [0])
    else some enc

/-- `Code39::encode`: guard, payload, guard. -/
def Code39.encode (b : Code39) : Option (List Nat) :=
  match Code39.payload b with
  | none => none
  | some p => some (join_slices [Code39.GUARD, p, Code39.GUARD])

/-- Claim C7: framing invariants.  Whenever `encode` returns normally, Code39
output starts and ends with its 12-bit guard, Code93 output starts with its
9-bit guard and ends with the guard followed by the terminator bit 1, and
EAN-13 output starts and ends with the guard 101. -/
theorem framing_guards :
    (∀ (b : Code39) (e : List Nat), Code39.encode b = some e →
      ∃ mid, e = Code39.GUARD ++ mid ++ Code39.GUARD) ∧
    (∀ (b : Code93) (e : List Nat), Code93.encode b = some e →
      ∃ mid, e = Code93.GUARD ++ mid ++ (Code93.GUARD ++ Code93.TERMINATOR)) ∧
    (∀ (b : EAN13) (e : List Nat), EAN13.encode b = some e →
      ∃ mid, e = EAN13.LEFT_GUARD ++ mid ++ EAN13.RIGHT_GUARD) := by
  refine ⟨?_, ?_, ?_⟩
  · intro b e he
    unfold Code39.encode at he
    rcases hp : Code39.payload b with _ | p <;> rw [hp] at he
    · exact absurd he (by simp)
    · simp only [Option.some.injEq] at he
      exact ⟨p, by rw [← he]; simp [join_slices]⟩
  · intro b e he
    unfold Code93.encode at he
    rcases hp : Code93.payload b with _ | p <;> rw [hp] at he
    · exact absurd he (by simp)
    · simp only [Option.some.injEq] at he
      exact ⟨p, by rw [← he]; simp [join_slices, Code93.TERMINATOR]⟩
  · intro b e he
    unfold EAN13.encode at he
    rcases hns : EAN13.number_system_encoding b with _ | ns
    · rw [hns] at he; exact absurd he (by simp)
    rw [hns] at he
    rcases hlp : EAN13.left_payload b with _ | lp
    · rw [hlp] at he; exact absurd he (by simp)
    rw [hlp] at he
    rcases hrp : EAN13.right_payload b with _ | rp
    · rw [hrp] at he; exact absurd he (by simp)
    rw [hrp] at he
    rcases hce : EAN13.checksum_encoding b with _ | ce
    · rw [hce] at he; exact absurd he (by simp)
    rw [hce] at he
    simp only [Option.some.injEq] at he
    exact ⟨ns ++ lp ++ EAN13.MIDDLE_GUARD ++ rp ++ ce, by rw [← he]; simp [join_slices]⟩

/-- Witness for claim C7: the encodings of Code39 "1234", Code93 "99" and
EAN-13 "750103131130" (the repo's own test vectors) are framed by their
guards. -/
theorem framing_guards_witness :
    (∃ mid, [1, 0, 0, 1, 0, 1, 1, 0, 1, 1, 0, 1, 0, 1, 1, 0, 1, 0, 0, 1, 0, 1, 0, 1, 1, 0,
        1, 0, 1, 1, 0, 0, 1, 0, 1, 0, 1, 1, 0, 1, 1, 0, 1, 1, 0, 0, 1, 0, 1, 0, 1, 0, 1, 0,
        1, 0, 0, 1, 1, 0, 1, 0, 1, 1, 0, 1, 0, 0, 1, 0, 1, 1, 0, 1, 1, 0, 1] =
      Code39.GUARD ++ mid ++ Code39.GUARD) ∧
    (∃ mid, [1, 0, 1, 0, 1, 1, 1, 1, 0, 1, 0, 0, 0, 0, 1, 0, 1, 0, 1, 0, 0, 0, 0, 1, 0, 1,
        0, 1, 1, 0, 1, 1, 0, 0, 1, 0, 1, 0, 0, 0, 1, 0, 1, 1, 0, 1, 0, 1, 0, 1, 1, 1, 1, 0,
        1] =
      Code93.GUARD ++ mid ++ (Code93.GUARD ++ Code93.TERMINATOR)) ∧
    (∃ mid, [1, 0, 1, 0, 1, 1, 0, 0, 0, 1, 0, 1, 0, 0, 1, 1, 1, 0, 0, 1, 1, 0, 0, 1, 0, 1,
        0, 0, 1, 1, 1, 0, 1, 1, 1, 1, 0, 1, 0, 1, 1, 0, 0, 1, 1, 0, 1, 0, 1, 0, 1, 0, 0, 0,
        0, 1, 0, 1, 1, 0, 0, 1, 1, 0, 1, 1, 0, 0, 1, 1, 0, 1, 0, 0, 0, 0, 1, 0, 1, 1, 1, 0,
        0, 1, 0, 1, 1, 1, 0, 1, 0, 0, 1, 0, 1] =
      EAN13.LEFT_GUARD ++ mid ++ EAN13.RIGHT_GUARD) :=
  ⟨framing_guards.1 ⟨['1', '2', '3', '4'], false⟩ _ (by decide),
   framing_guards.2.1 ⟨['9', '9']⟩ _ (by decide),
   framing_guards.2.2 ⟨[7, 5, 0, 1, 0, 3, 1, 3, 1, 1, 3, 0]⟩ _ (by decide)⟩

/-! ### Code11 (src/sym/code11.rs) -/

/-- The 11-entry character table `CHARS` from src/sym/code11.rs (patterns have
mixed widths). -/
def Code11.CHARS : List (Char × List Nat) :=
  [('0', [1, 0, 1, 0, 1, 1]),
   ('1', [1, 1, 0, 1, 0, 1, 1]),
   ('2', [1, 0, 0, 1, 0, 1, 1]),
   ('3', [1, 1, 0, 0, 1, 0, 1]),
   ('4', [1, 0, 1, 1, 0, 1, 1]),
   ('5', [1, 1, 0, 1, 1, 0, 1]),
   ('6', [1, 0, 0, 1, 1, 0, 1]),
   ('7', [1, 0, 1, 0, 0, 1, 1]),
   ('8', [1, 1, 0, 1, 0, 0, 1]),
   ('9', [1, 1, 0, 1, 0, 1]),
   ('-', [1, 0, 1, 1, 0, 1])]

/-- The Code11 guard pattern. -/
def Code11.GUARD : List Nat := [1, 0, 1, 1, 0, 0, 1]

/-- The Code11 inter-character separator. -/
def Code11.SEPARATOR : List Nat := [0]

/-- The `Code11` tuple struct. -/
structure Code11 where
  data : List Char
deriving DecidableEq

/-- `<Code11 as Parse>::valid_len`: `1..256`. -/
def Code11.valid_len : NatRange := ⟨1, 256⟩

/-- `<Code11 as Parse>::valid_chars`. -/
def Code11.valid_chars : List Char := Code11.CHARS.map Prod.fst

/-- `Code11::new`. -/
def Code11.new (data : List Char) : Except Error Code11 :=
  match parseData Code11.valid_chars Code11.valid_len data with
  | .error e => .error e
  | .ok d => .ok ⟨d⟩

/-- `Code11::char_encoding`; an unknown character panics (`none`). -/
def Code11.char_encoding (c : Char) : Option (List Nat) :=
  match Code11.CHARS.find? (fun t => t.1 == c) with
  | some t => some t.2
  | none => none

/-- The `get_char_pos` closure of `Code11::checksum_char` (panic is `none`). -/
def Code11.char_pos (c : Char) : Option Nat :=
  Code11.CHARS.findIdx? (fun t => t.1 == c)

/-- The `weight` closure of `Code11::checksum_char`: `i % t`, with 0 mapped to
the threshold `t` itself. -/
def Code11.weight (t i : Nat) : Nat :=
  if i % t = 0 then t else i % t

/-- `Code11::checksum_char`: table positions weighted from the right (weights
`weight(i+1)` over the reversed data), summed, reduced modulo the table size
(11 for both passes, per the code comment). -/
def Code11.checksum_char (data : List Char) (t : Nat) : Option Char :=
  match data.mapM Code11.char_pos with
  | none => none
  | some ps =>
    let index := ps.reverse.enum.foldl
      (fun acc ip => acc + Code11.weight t (ip.1 + 1) * ip.2) 0
    (Code11.CHARS.get? (index % Code11.CHARS.length)).map Prod.fst

/-- `Code11::c_checksum_char`: weight threshold 10. -/
def Code11.c_checksum_char (b : Code11) : Option Char :=
  Code11.checksum_char b.data 10

/-- `Code11::k_checksum_char`: over data plus the C checksum, threshold 9. -/
def Code11.k_checksum_char (b : Code11) (c_checksum : Char) : Option Char :=
  Code11.checksum_char (b.data ++ [c_checksum]) 9

/-- `Code11::payload`: C checksum first, each character's pattern plus
separator, the C pattern plus separator, and the K pattern plus separator only
when more than 10 data characters are present. -/
def Code11.payload (b : Code11) : Option (List Nat) :=
  match Code11.c_checksum_char b with
  | none => none
  | some c =>
    match b.data.mapM Code11.char_encoding with
    | none => none
    | some body =>
      match Code11.char_encoding c with
      | none => none
      | some ce =>
        let base := (body.map (fun e => e ++ Code11.SEPARATOR)).flatten ++
          ce ++ Code11.SEPARATOR
        if b.data.length > 10 then
          match Code11.k_checksum_char b c with
          | none => none
          | some k =>
            match Code11.char_encoding k with
            | none => none
            | some ke => some (base ++ ke ++ Code11.SEPARATOR)
        else some base

/-- `Code11::encode`: guard, separator, payload, guard. -/
def Code11.encode (b : Code11) : Option (List Nat) :=
  match Code11.payload b with
  | none => none
  | some p => some (join_slices [Code11.GUARD, Code11.SEPARATOR, p, Code11.GUARD])

/-- Claim C4: whenever `Code11::payload` returns normally it contains exactly
one C check character (weighted algorithm, threshold 10, modulo the 11-entry
table), and additionally the K check character — computed over the data plus
the C character with threshold 9 — exactly when the data length exceeds 10;
the payload sits between the guard patterns in `encode`. -/
theorem code11_checksum_structure (b : Code11) (body : List (List Nat)) (c : Char)
    (ce : List Nat)
    (hb : b.data.mapM Code11.char_encoding = some body)
    (hc : Code11.c_checksum_char b = some c)
    (hce : Code11.char_encoding c = some ce) :
    (b.data.length ≤ 10 →
      Code11.payload b =
        some ((body.map (fun e => e ++ [0])).flatten ++ ce ++ [0])) ∧
    (∀ k ke, 10 < b.data.length → Code11.k_checksum_char b c = some k →
      Code11.char_encoding k = some ke →
      Code11.payload b =
        some ((body.map (fun e => e ++ [0])).flatten ++ ce ++ [0] ++ ke ++ [0])) ∧
    (∀ p, Code11.payload b = some p →
      Code11.encode b = some (Code11.GUARD ++ [0] ++ p ++ Code11.GUARD)) := by
  refine ⟨?_, ?_, ?_⟩
  · intro hle
    unfold Code11.payload
    rw [hc, hb]
    dsimp only
    rw [hce]
    dsimp only
    rw [if_neg (by omega)]
    simp [Code11.SEPARATOR]
  · intro k ke hgt hk hke
    unfold Code11.payload
    rw [hc, hb]
    dsimp only
    rw [hce]
    dsimp only
    rw [if_pos (by omega), hk]
    dsimp only
    rw [hke]
    simp [Code11.SEPARATOR]
  · intro p hp
    unfold Code11.encode
    rw [hp]
    simp [join_slices, Code11.SEPARATOR]

/-- Witness for claim C4: the 14-character input "1234-5678-4321" (the repo's
own long test input) gets C checksum '5' and K checksum '6', and its payload
is the body patterns, the C pattern and the K pattern, each followed by the
separator. -/
theorem code11_checksum_structure_witness :
    Code11.payload ⟨("1234-5678-4321".toList)⟩ =
      some [1, 1, 0, 1, 0, 1, 1, 0, 1, 0, 0, 1, 0, 1, 1, 0, 1, 1, 0, 0, 1, 0, 1, 0, 1, 0,
        1, 1, 0, 1, 1, 0, 1, 0, 1, 1, 0, 1, 0, 1, 1, 0, 1, 1, 0, 1, 0, 1, 0, 0, 1, 1, 0, 1,
        0, 1, 0, 1, 0, 0, 1, 1, 0, 1, 1, 0, 1, 0, 0, 1, 0, 1, 0, 1, 1, 0, 1, 0, 1, 0, 1, 1,
        0, 1, 1, 0, 1, 1, 0, 0, 1, 0, 1, 0, 1, 0, 0, 1, 0, 1, 1, 0, 1, 1, 0, 1, 0, 1, 1, 0,
        1, 1, 0, 1, 1, 0, 1, 0, 1, 0, 0, 1, 1, 0, 1, 0] := by
  have h := (code11_checksum_structure ⟨("1234-5678-4321".toList)⟩
      [[1, 1, 0, 1, 0, 1, 1],
       [1, 0, 0, 1, 0, 1, 1],
       [1, 1, 0, 0, 1, 0, 1],
       [1, 0, 1, 1, 0, 1, 1],
       [1, 0, 1, 1, 0, 1],
       [1, 1, 0, 1, 1, 0, 1],
       [1, 0, 0, 1, 1, 0, 1],
       [1, 0, 1, 0, 0, 1, 1],
       [1, 1, 0, 1, 0, 0, 1],
       [1, 0, 1, 1, 0, 1],
       [1, 0, 1, 1, 0, 1, 1],
       [1, 1, 0, 0, 1, 0, 1],
       [1, 0, 0, 1, 0, 1, 1],
       [1, 1, 0, 1, 0, 1, 1]] '5' [1, 1, 0, 1, 1, 0, 1]
      (by decide) (by decide) (by decide)).2.1 '6' [1, 0, 0, 1, 1, 0, 1]
      (by decide) (by decide) (by decide)
  exact h.trans (by decide)

/-! ### Two-of-five (src/sym/tf.rs) -/

/-- The `TF` enum: standard or interleaved 2-of-5, sharing table data. -/
inductive TF where
  | Standard (digits : List Nat)
  | Interleaved (digits : List Nat)
deriving DecidableEq

/-- `WIDTHS` from src/sym/tf.rs (narrow/wide patterns per digit). -/
def TF.WIDTHS : List (List Char) :=
  [['N', 'N', 'W', 'W', 'N'], ['W', 'N', 'N', 'N', 'W'], ['N', 'W', 'N', 'N', 'W'],
   ['W', 'W', 'N', 'N', 'N'], ['N', 'N', 'W', 'N', 'W'], ['W', 'N', 'W', 'N', 'N'],
   ['N', 'W', 'W', 'N', 'N'], ['N', 'N', 'N', 'W', 'W'], ['W', 'N', 'N', 'W', 'N'],
   ['N', 'W', 'N', 'W', 'N']]

/-- `<TF as Parse>::valid_len`: `1..256`. -/
def TF.valid_len : NatRange := ⟨1, 256⟩

/-- `<TF as Parse>::valid_chars`: the decimal digits via `char::from_digit`. -/
def TF.valid_chars : List Char := (List.range 10).map (fun i => Char.ofNat (48 + i))

/-- `TF::interleaved`: shared parse, digit conversion (`expect` panic is
`none`), and the modulo-10 check digit appended exactly when the digit count
is odd. -/
def TF.interleaved (data : List Char) : Option (Except Error TF) :=
  match parseData TF.valid_chars TF.valid_len data with
  | .error e => some (.error e)
  | .ok d =>
    match d.mapM rustToDigit with
    | none => none
    | some digits =>
      let digits2 :=
        if digits.length % 2 = 1 then digits ++ [modulo_10_checksum digits false]
        else digits
      some (.ok (TF.Interleaved digits2))

/-- `TF::standard`: shared parse and digit conversion, stored unchanged. -/
def TF.standard (data : List Char) : Option (Except Error TF) :=
  match parseData TF.valid_chars TF.valid_len data with
  | .error e => some (.error e)
  | .ok d =>
    match d.mapM rustToDigit with
    | none => none
    | some digits => some (.ok (TF.Standard digits))

/-- `TF::raw_data`. -/
def TF.raw_data : TF → List Nat
  | .Standard d => d
  | .Interleaved d => d

/-- `TF::interleave`: weave one digit's bar widths with another digit's space
widths ('W' is three modules, otherwise one); out-of-range table indexing is a
panic (`none`). -/
def TF.interleave (bars spaces : Nat) : Option (List Nat) :=
  match TF.WIDTHS.get? bars with
  | none => none
  | some bw =>
    match TF.WIDTHS.get? spaces with
    | none => none
    | some sw =>
      some ((bw.zip sw).foldl
        (fun enc bs =>
          enc ++ (if bs.1 = 'W' then [1, 1, 1] else [1]) ++
            (if bs.2 = 'W' then [0, 0, 0] else [0])) [])

/-- Rust `slice::chunks(2)`: pairs, with a trailing singleton when the length
is odd. -/
def chunks2 : List Nat → List (List Nat)
  | [] => []
  | [a] => [[a]]
  | a :: b :: rest => [a, b] :: chunks2 rest

/-- `TF::itf_payload` on the stored digits: each chunk of two digits is
interleaved (indexing `c[1]` of a singleton chunk is a panic, `none`). -/
def TF.itf_payload (digits : List Nat) : Option (List Nat) :=
  match (chunks2 digits).mapM (fun ch =>
    match ch.get? 0 with
    | none => none
    | some b =>
      match ch.get? 1 with
      | none => none
      | some s => TF.interleave b s) with
  | none => none
  | some weaves => some (join_iters weaves)

/-! ### Digit-conversion lemmas -/

theorem rustToDigit_facts (c : Char) (n : Nat) (h : rustToDigit c = some n) :
    n < 10 ∧ charUtf8Size c = 1 ∧
    ((List.range 10).map (fun i => Char.ofNat (48 + i))).contains c := by
  unfold rustToDigit at h
  by_cases hd : c.isDigit
  · rw [if_pos hd] at h
    have hn : c.toNat - 48 = n := by injection h
    have hb : 48 ≤ c.toNat ∧ c.toNat ≤ 57 := by
      simp [Char.isDigit] at hd
      exact hd
    refine ⟨by omega, ?_, ?_⟩
    · unfold charUtf8Size
      rw [if_pos (by omega)]
    · have hof : ∀ k : Nat, c.toNat = k → c = Char.ofNat k := by
        intro k hk
        rw [← hk, Char.ofNat_toNat]
      have h10 : c.toNat = 48 ∨ c.toNat = 49 ∨ c.toNat = 50 ∨ c.toNat = 51 ∨
          c.toNat = 52 ∨ c.toNat = 53 ∨ c.toNat = 54 ∨ c.toNat = 55 ∨
          c.toNat = 56 ∨ c.toNat = 57 := by omega
      rcases h10 with hk | hk | hk | hk | hk | hk | hk | hk | hk | hk <;>
        rw [hof _ hk] <;> decide
  · rw [if_neg hd] at h
    exact absurd h (by simp)

theorem mapM_rustToDigit_props (data : List Char) (digits : List Nat)
    (h : data.mapM rustToDigit = some digits) :
    digits.length = data.length ∧ (∀ n ∈ digits, n < 10) ∧
    (∀ c ∈ data,
      charUtf8Size c = 1 ∧
      ((List.range 10).map (fun i => Char.ofNat (48 + i))).contains c) := by
  induction data generalizing digits with
  | nil =>
    simp only [List.mapM_nil, pure, Option.some.injEq] at h
    subst h
    exact ⟨rfl, by simp, by simp⟩
  | cons c cs ih =>
    rw [List.mapM_cons] at h
    rcases hc : rustToDigit c with _ | n
    · rw [hc] at h
      exact absurd h (by simp [Bind.bind])
    rw [hc] at h
    rcases hcs : cs.mapM rustToDigit with _ | ns
    · rw [hcs] at h
      exact absurd h (by simp [Bind.bind])
    rw [hcs] at h
    have hdig : digits = n :: ns := by
      simpa [Bind.bind, pure] using h.symm
    subst hdig
    obtain ⟨hlen, hlt, hcf⟩ := ih ns hcs
    obtain ⟨hn10, hcsz, hcmem⟩ := rustToDigit_facts c n hc
    refine ⟨by simp [hlen], ?_, ?_⟩
    · intro m hm
      rcases List.mem_cons.mp hm with rfl | hm'
      · exact hn10
      · exact hlt m hm'
    · intro x hx
      rcases List.mem_cons.mp hx with rfl | hx'
      · exact ⟨hcsz, hcmem⟩
      · exact hcf x hx'

theorem modulo_10_checksum_lt_ten (data : List Nat) (flag : Bool) :
    modulo_10_checksum data flag < 10 := by
  have h : ∀ total : Nat, (if 10 - total % 10 = 10 then 0 else 10 - total % 10) < 10 := by
    intro total
    have := Nat.mod_lt total (show 0 < 10 by omega)
    split <;> omega
  unfold modulo_10_checksum
  dsimp only
  exact h _

theorem interleave_isSome (a b : Nat) (ha : a < 10) (hb : b < 10) :
    (TF.interleave a b).isSome := by
  rcases h1 : TF.WIDTHS.get? a with _ | bw
  · rw [List.get?_eq_none] at h1
    exact absurd h1 (by simp [TF.WIDTHS]; omega)
  rcases h2 : TF.WIDTHS.get? b with _ | sw
  · rw [List.get?_eq_none] at h2
    exact absurd h2 (by simp [TF.WIDTHS]; omega)
  unfold TF.interleave
  rw [h1, h2]
  rfl

theorem chunks2_mapM_some (digits : List Nat) (heven : digits.length % 2 = 0)
    (hlt : ∀ n ∈ digits, n < 10) :
    ∃ ws, (chunks2 digits).mapM (fun ch =>
      match ch.get? 0 with
      | none => none
      | some b =>
        match ch.get? 1 with
        | none => none
        | some s => TF.interleave b s) = some ws := by
  match digits with
  | [] => exact ⟨[], rfl⟩
  | [a] => simp at heven
  | a :: b :: rest =>
    have hab : (TF.interleave a b).isSome :=
      interleave_isSome a b (hlt a (by simp)) (hlt b (by simp))
    rcases hw : TF.interleave a b with _ | w
    · rw [hw] at hab
      simp at hab
    obtain ⟨ws, hws⟩ := chunks2_mapM_some rest (by simp at heven; omega)
      (fun n hn => hlt n (by simp [hn]))
    refine ⟨w :: ws, ?_⟩
    show ((([a, b] : List Nat) :: chunks2 rest).mapM _) = _
    rw [List.mapM_cons]
    have hhead : (match ([a, b] : List Nat).get? 0 with
        | none => none
        | some b' =>
          match ([a, b] : List Nat).get? 1 with
          | none => none
          | some s => TF.interleave b' s) = some w := by
      simpa using hw
    rw [hhead, hws]
    rfl

theorem itf_payload_isSome (digits : List Nat) (heven : digits.length % 2 = 0)
    (hlt : ∀ n ∈ digits, n < 10) : (TF.itf_payload digits).isSome := by
  obtain ⟨ws, hws⟩ := chunks2_mapM_some digits heven hlt
  unfold TF.itf_payload
  rw [hws]
  rfl

/-- Claim C6: for every valid all-digit input, `TF::interleaved` appends the
simple modulo-10 check digit exactly when the digit count is odd, so the
Interleaved variant always stores an even number of digits and its payload
packs two digits per pass without panicking, while `TF::standard` stores the
digits unchanged. -/
theorem tf_interleaved_checksum (data : List Char) (digits : List Nat)
    (hd : data.mapM rustToDigit = some digits)
    (hlo : 1 ≤ data.length) (hhi : data.length ≤ 256) :
    TF.interleaved data = some (.ok (TF.Interleaved (digits ++
      (if digits.length % 2 = 1 then [modulo_10_checksum digits false] else [])))) ∧
    (digits ++
      (if digits.length % 2 = 1 then [modulo_10_checksum digits false] else [])).length
        % 2 = 0 ∧
    TF.standard data = some (.ok (TF.Standard digits)) ∧
    (TF.itf_payload (digits ++
      (if digits.length % 2 = 1 then [modulo_10_checksum digits false] else []))).isSome := by
  obtain ⟨hlen, hlt, hcf⟩ := mapM_rustToDigit_props data digits hd
  have hulen : utf8Len data = data.length :=
    utf8Len_of_all_ascii data (fun c hc => (hcf c hc).1)
  have hp : parseData TF.valid_chars TF.valid_len data = .ok data := by
    refine parseData_ok _ _ _ ?_ ?_ ?_ (fun c hc => (hcf c hc).2)
    · rw [hulen]; unfold u32Max; omega
    · show TF.valid_len.start ≤ utf8Len data
      rw [hulen]; exact hlo
    · show utf8Len data ≤ TF.valid_len.stop
      rw [hulen]; exact hhi
  have hext : digits ++
      (if digits.length % 2 = 1 then [modulo_10_checksum digits false] else []) =
      (if digits.length % 2 = 1 then digits ++ [modulo_10_checksum digits false]
       else digits) := by
    by_cases hpar : digits.length % 2 = 1
    · rw [if_pos hpar, if_pos hpar]
    · rw [if_neg hpar, if_neg hpar, List.append_nil]
  refine ⟨?_, ?_, ?_, ?_⟩
  · unfold TF.interleaved
    rw [hp]
    dsimp only
    rw [hd]
    dsimp only
    rw [hext]
  · by_cases hpar : digits.length % 2 = 1
    · rw [if_pos hpar]
      simp only [List.length_append, List.length_cons, List.length_nil]
      omega
    · rw [if_neg hpar, List.append_nil]
      omega
  · unfold TF.standard
    rw [hp]
    dsimp only
    rw [hd]
  · refine itf_payload_isSome _ ?_ ?_
    · by_cases hpar : digits.length % 2 = 1
      · rw [if_pos hpar]
        simp only [List.length_append, List.length_cons, List.length_nil]
        omega
      · rw [if_neg hpar, List.append_nil]
        omega
    · intro n hn
      rcases List.mem_append.mp hn with hn' | hn'
      · exact hlt n hn'
      · by_cases hpar : digits.length % 2 = 1
        · rw [if_pos hpar] at hn'
          have : n = modulo_10_checksum digits false := by simpa using hn'
          rw [this]
          exact modulo_10_checksum_lt_ten digits false
        · rw [if_neg hpar] at hn'
          simp at hn'

/-- Witness for claim C6: the odd-length input "1234567" (the repo's own
`itf_encode` test input) gets check digit 0 appended by `TF::interleaved` and
is stored unchanged by `TF::standard`. -/
theorem tf_interleaved_checksum_witness :
    TF.interleaved ("1234567".toList) =
      some (.ok (TF.Interleaved [1, 2, 3, 4, 5, 6, 7, 0])) ∧
    TF.standard ("1234567".toList) = some (.ok (TF.Standard [1, 2, 3, 4, 5, 6, 7])) := by
  have h := tf_interleaved_checksum ("1234567".toList) [1, 2, 3, 4, 5, 6, 7]
    (by decide) (by decide) (by decide)
  exact ⟨h.1.trans (by decide), h.2.2.1⟩

/-! ### EAN supplementals (src/sym/ean_supp.rs) -/

/-- The `EANSUPP` enum: 2-digit or 5-digit supplemental. -/
inductive EANSUPP where
  | EAN2 (digits : List Nat)
  | EAN5 (digits : List Nat)
deriving DecidableEq

/-- `<EANSUPP as Parse>::valid_len`: `2..5`. -/
def EANSUPP.valid_len : NatRange := ⟨2, 5⟩

/-- `<EANSUPP as Parse>::valid_chars`: the decimal digits. -/
def EANSUPP.valid_chars : List Char := (List.range 10).map (fun i => Char.ofNat (48 + i))

/-- `EANSUPP::new`: shared parse, digit conversion (`expect` panic is `none`),
then the variant is chosen by the digit count — 2 gives EAN2, 5 gives EAN5,
anything else (3 or 4, which pass the shared checks) is Error::Length. -/
def EANSUPP.new (data : List Char) : Option (Except Error EANSUPP) :=
  match parseData EANSUPP.valid_chars EANSUPP.valid_len data with
  | .error e => some (.error e)
  | .ok d =>
    match d.mapM rustToDigit with
    | none => none
    | some digits =>
      if digits.length = 2 then some (.ok (.EAN2 digits))
      else if digits.length = 5 then some (.ok (.EAN5 digits))
      else some (.error .Length)

/-- Claim C10: `EANSUPP::new` returns the EAN2 variant for every valid 2-digit
input and the EAN5 variant for every valid 5-digit input, and Err(Error::Length)
for every other all-digit input length — in particular lengths 3 and 4, which
pass the shared length-range and character checks. -/
theorem eansupp_variant_by_length (data : List Char) (digits : List Nat)
    (hd : data.mapM rustToDigit = some digits) :
    (digits.length = 2 → EANSUPP.new data = some (.ok (.EAN2 digits))) ∧
    (digits.length = 5 → EANSUPP.new data = some (.ok (.EAN5 digits))) ∧
    (digits.length ≠ 2 → digits.length ≠ 5 →
      EANSUPP.new data = some (.error .Length)) := by
  obtain ⟨hlen, hlt, hcf⟩ := mapM_rustToDigit_props data digits hd
  have hulen : utf8Len data = data.length :=
    utf8Len_of_all_ascii data (fun c hc => (hcf c hc).1)
  have hok : 2 ≤ data.length → data.length ≤ 5 →
      parseData EANSUPP.valid_chars EANSUPP.valid_len data = .ok data := by
    intro h2 h5
    refine parseData_ok _ _ _ ?_ ?_ ?_ (fun c hc => (hcf c hc).2)
    · rw [hulen]; unfold u32Max; omega
    · show EANSUPP.valid_len.start ≤ utf8Len data
      rw [hulen]; exact h2
    · show utf8Len data ≤ EANSUPP.valid_len.stop
      rw [hulen]; exact h5
  refine ⟨?_, ?_, ?_⟩
  · intro h2
    unfold EANSUPP.new
    rw [hok (by omega) (by omega)]
    dsimp only
    rw [hd]
    dsimp only
    rw [if_pos h2]
  · intro h5
    unfold EANSUPP.new
    rw [hok (by omega) (by omega)]
    dsimp only
    rw [hd]
    dsimp only
    rw [if_neg (by omega), if_pos h5]
  · intro hn2 hn5
    by_cases hin : 2 ≤ data.length ∧ data.length ≤ 5
    · unfold EANSUPP.new
      rw [hok hin.1 hin.2]
      dsimp only
      rw [hd]
      dsimp only
      rw [if_neg hn2, if_neg hn5]
    · have herr : parseData EANSUPP.valid_chars EANSUPP.valid_len data = .error .Length := by
        refine parseData_len_err _ _ _ ?_
        rw [show EANSUPP.valid_len.start = 2 from rfl, show EANSUPP.valid_len.stop = 5 from rfl,
          hulen]
        omega
      unfold EANSUPP.new
      rw [herr]

/-- Witness for claim C10: "12" gives EAN2, "12345" gives EAN5, and the
all-digit length-3 input "123" (which passes the shared 2..=5 length check) is
rejected with Error::Length. -/
theorem eansupp_variant_by_length_witness :
    EANSUPP.new ("12".toList) = some (.ok (.EAN2 [1, 2])) ∧
    EANSUPP.new ("12345".toList) = some (.ok (.EAN5 [1, 2, 3, 4, 5])) ∧
    EANSUPP.new ("123".toList) = some (.error .Length) :=
  ⟨(eansupp_variant_by_length ("12".toList) [1, 2] (by decide)).1 (by decide),
   (eansupp_variant_by_length ("12345".toList) [1, 2, 3, 4, 5] (by decide)).2.1 (by decide),
   (eansupp_variant_by_length ("123".toList) [1, 2, 3] (by decide)).2.2 (by decide) (by decide)⟩

/-! ### Code128 (src/sym/code128.rs) -/

/-- The 106-entry `CHARS` table from src/sym/code128.rs: the three
character-set columns and the 11-bit pattern. -/
def Code128.CHARS : List (List String × List Nat) :=
  [([" ", " ", "00"], [1, 1, 0, 1, 1, 0, 0, 1, 1, 0, 0]),
   (["!", "!", "01"], [1, 1, 0, 0, 1, 1, 0, 1, 1, 0, 0]),
   (["\"", "\"", "02"], [1, 1, 0, 0, 1, 1, 0, 0, 1, 1, 0]),
   (["#", "#", "03"], [1, 0, 0, 1, 0, 0, 1, 1, 0, 0, 0]),
   (["$", "$", "04"], [1, 0, 0, 1, 0, 0, 0, 1, 1, 0, 0]),
   (["%", "%", "05"], [1, 0, 0, 0, 1, 0, 0, 1, 1, 0, 0]),
   (["&", "&", "06"], [1, 0, 0, 1, 1, 0, 0, 1, 0, 0, 0]),
   (["\u0027", "\u0027", "07"], [1, 0, 0, 1, 1, 0, 0, 0, 1, 0, 0]),
   (["(", "(", "08"], [1, 0, 0, 0, 1, 1, 0, 0, 1, 0, 0]),
   ([")", ")", "09"], [1, 1, 0, 0, 1, 0, 0, 1, 0, 0, 0]),
   (["*", "*", "10"], [1, 1, 0, 0, 1, 0, 0, 0, 1, 0, 0]),
   (["+", "+", "11"], [1, 1, 0, 0, 0, 1, 0, 0, 1, 0, 0]),
   ([",", ",", "12"], [1, 0, 1, 1, 0, 0, 1, 1, 1, 0, 0]),
   (["-", "-", "13"], [1, 0, 0, 1, 1, 0, 1, 1, 1, 0, 0]),
   ([".", ".", "14"], [1, 0, 0, 1, 1, 0, 0, 1, 1, 1, 0]),
   (["/", "/", "15"], [1, 0, 1, 1, 1, 0, 0, 1, 1, 0, 0]),
   (["0", "0", "16"], [1, 0, 0, 1, 1, 1, 0, 1, 1, 0, 0]),
   (["1", "1", "17"], [1, 0, 0, 1, 1, 1, 0, 0, 1, 1, 0]),
   (["2", "2", "18"], [1, 1, 0, 0, 1, 1, 1, 0, 0, 1, 0]),
   (["3", "3", "19"], [1, 1, 0, 0, 1, 0, 1, 1, 1, 0, 0]),
   (["4", "4", "20"], [1, 1, 0, 0, 1, 0, 0, 1, 1, 1, 0]),
   (["5", "5", "21"], [1, 1, 0, 1, 1, 1, 0, 0, 1, 0, 0]),
   (["6", "6", "22"], [1, 1, 0, 0, 1, 1, 1, 0, 1, 0, 0]),
   (["7", "7", "23"], [1, 1, 1, 0, 1, 1, 0, 1, 1, 1, 0]),
   (["8", "8", "24"], [1, 1, 1, 0, 1, 0, 0, 1, 1, 0, 0]),
   (["9", "9", "25"], [1, 1, 1, 0, 0, 1, 0, 1, 1, 0, 0]),
   ([":", ":", "26"], [1, 1, 1, 0, 0, 1, 0, 0, 1, 1, 0]),
   ([";", ";", "27"], [1, 1, 1, 0, 1, 1, 0, 0, 1, 0, 0]),
   (["<", "<", "28"], [1, 1, 1, 0, 0, 1, 1, 0, 1, 0, 0]),
   (["=", "=", "29"], [1, 1, 1, 0, 0, 1, 1, 0, 0, 1, 0]),
   ([">", ">", "30"], [1, 1, 0, 1, 1, 0, 1, 1, 0, 0, 0]),
   (["?", "?", "31"], [1, 1, 0, 1, 1, 0, 0, 0, 1, 1, 0]),
   (["@", "@", "32"], [1, 1, 0, 0, 0, 1, 1, 0, 1, 1, 0]),
   (["A", "A", "33"], [1, 0, 1, 0, 0, 0, 1, 1, 0, 0, 0]),
   (["B", "B", "34"], [1, 0, 0, 0, 1, 0, 1, 1, 0, 0, 0]),
   (["C", "C", "35"], [1, 0, 0, 0, 1, 0, 0, 0, 1, 1, 0]),
   (["D", "D", "36"], [1, 0, 1, 1, 0, 0, 0, 1, 0, 0, 0]),
   (["E", "E", "37"], [1, 0, 0, 0, 1, 1, 0, 1, 0, 0, 0]),
   (["F", "F", "38"], [1, 0, 0, 0, 1, 1, 0, 0, 0, 1, 0]),
   (["G", "G", "39"], [1, 1, 0, 1, 0, 0, 0, 1, 0, 0, 0]),
   (["H", "H", "40"], [1, 1, 0, 0, 0, 1, 0, 1, 0, 0, 0]),
   (["I", "I", "41"], [1, 1, 0, 0, 0, 1, 0, 0, 0, 1, 0]),
   (["J", "J", "42"], [1, 0, 1, 1, 0, 1, 1, 1, 0, 0, 0]),
   (["K", "K", "43"], [1, 0, 1, 1, 0, 0, 0, 1, 1, 1, 0]),
   (["L", "L", "44"], [1, 0, 0, 0, 1, 1, 0, 1, 1, 1, 0]),
   (["M", "M", "45"], [1, 0, 1, 1, 1, 0, 1, 1, 0, 0, 0]),
   (["N", "N", "46"], [1, 0, 1, 1, 1, 0, 0, 0, 1, 1, 0]),
   (["O", "O", "47"], [1, 0, 0, 0, 1, 1, 1, 0, 1, 1, 0]),
   (["P", "P", "48"], [1, 1, 1, 0, 1, 1, 1, 0, 1, 1, 0]),
   (["Q", "Q", "49"], [1, 1, 0, 1, 0, 0, 0, 1, 1, 1, 0]),
   (["R", "R", "50"], [1, 1, 0, 0, 0, 1, 0, 1, 1, 1, 0]),
   (["S", "S", "51"], [1, 1, 0, 1, 1, 1, 0, 1, 0, 0, 0]),
   (["T", "T", "52"], [1, 1, 0, 1, 1, 1, 0, 0, 0, 1, 0]),
   (["U", "U", "53"], [1, 1, 0, 1, 1, 1, 0, 1, 1, 1, 0]),
   (["V", "V", "54"], [1, 1, 1, 0, 1, 0, 1, 1, 0, 0, 0]),
   (["W", "W", "55"], [1, 1, 1, 0, 1, 0, 0, 0, 1, 1, 0]),
   (["X", "X", "56"], [1, 1, 1, 0, 0, 0, 1, 0, 1, 1, 0]),
   (["Y", "Y", "57"], [1, 1, 1, 0, 1, 1, 0, 1, 0, 0, 0]),
   (["Z", "Z", "58"], [1, 1, 1, 0, 1, 1, 0, 0, 0, 1, 0]),
   (["[", "[", "59"], [1, 1, 1, 0, 0, 0, 1, 1, 0, 1, 0]),
   (["\\", "\\", "60"], [1, 1, 1, 0, 1, 1, 1, 1, 0, 1, 0]),
   (["]", "]", "61"], [1, 1, 0, 0, 1, 0, 0, 0, 0, 1, 0]),
   (["^", "^", "62"], [1, 1, 1, 1, 0, 0, 0, 1, 0, 1, 0]),
   (["_", "_", "63"], [1, 0, 1, 0, 0, 1, 1, 0, 0, 0, 0]),
   (["\u0000", "`", "64"], [1, 0, 1, 0, 0, 0, 0, 1, 1, 0, 0]),
   (["\u0001", "a", "65"], [1, 0, 0, 1, 0, 1, 1, 0, 0, 0, 0]),
   (["\u0002", "b", "66"], [1, 0, 0, 1, 0, 0, 0, 0, 1, 1, 0]),
   (["\u0003", "c", "67"], [1, 0, 0, 0, 0, 1, 0, 1, 1, 0, 0]),
   (["\u0004", "d", "68"], [1, 0, 0, 0, 0, 1, 0, 0, 1, 1, 0]),
   (["\u0005", "e", "69"], [1, 0, 1, 1, 0, 0, 1, 0, 0, 0, 0]),
   (["\u0006", "f", "70"], [1, 0, 1, 1, 0, 0, 0, 0, 1, 0, 0]),
   (["\u0007", "g", "71"], [1, 0, 0, 1, 1, 0, 1, 0, 0, 0, 0]),
   (["\u0008", "h", "72"], [1, 0, 0, 1, 1, 0, 0, 0, 0, 1, 0]),
   (["\u0009", "i", "73"], [1, 0, 0, 0, 0, 1, 1, 0, 1, 0, 0]),
   (["\u000A", "j", "74"], [1, 0, 0, 0, 0, 1, 1, 0, 0, 1, 0]),
   (["\u000B", "k", "75"], [1, 1, 0, 0, 0, 0, 1, 0, 0, 1, 0]),
   (["\u000C", "l", "76"], [1, 1, 0, 0, 1, 0, 1, 0, 0, 0, 0]),
   (["\u000D", "m", "77"], [1, 1, 1, 1, 0, 1, 1, 1, 0, 1, 0]),
   (["\u000E", "n", "78"], [1, 1, 0, 0, 0, 0, 1, 0, 1, 0, 0]),
   (["\u000F", "o", "79"], [1, 0, 0, 0, 1, 1, 1, 1, 0, 1, 0]),
   (["\u0010", "p", "80"], [1, 0, 1, 0, 0, 1, 1, 1, 1, 0, 0]),
   (["\u0011", "q", "81"], [1, 0, 0, 1, 0, 1, 1, 1, 1, 0, 0]),
   (["\u0012", "r", "82"], [1, 0, 0, 1, 0, 0, 1, 1, 1, 1, 0]),
   (["\u0013", "s", "83"], [1, 0, 1, 1, 1, 1, 0, 0, 1, 0, 0]),
   (["\u0014", "t", "84"], [1, 0, 0, 1, 1, 1, 1, 0, 1, 0, 0]),
   (["\u0015", "u", "85"], [1, 0, 0, 1, 1, 1, 1, 0, 0, 1, 0]),
   (["\u0016", "v", "86"], [1, 1, 1, 1, 0, 1, 0, 0, 1, 0, 0]),
   (["\u0017", "w", "87"], [1, 1, 1, 1, 0, 0, 1, 0, 1, 0, 0]),
   (["\u0018", "x", "88"], [1, 1, 1, 1, 0, 0, 1, 0, 0, 1, 0]),
   (["\u0019", "y", "89"], [1, 1, 0, 1, 1, 0, 1, 1, 1, 1, 0]),
   (["\u001A", "z", "90"], [1, 1, 0, 1, 1, 1, 1, 0, 1, 1, 0]),
   (["\u001B", "\x7b", "91"], [1, 1, 1, 1, 0, 1, 1, 0, 1, 1, 0]),
   (["\u001C", "|", "92"], [1, 0, 1, 0, 1, 1, 1, 1, 0, 0, 0]),
   (["\u001D", "\x7d", "93"], [1, 0, 1, 0, 0, 0, 1, 1, 1, 1, 0]),
   (["\u001E", "~", "94"], [1, 0, 0, 0, 1, 0, 1, 1, 1, 1, 0]),
   (["\u001F", "\u00F7", "95"], [1, 0, 1, 1, 1, 1, 0, 1, 0, 0, 0]),
   (["\u017B", "\u017B", "96"], [1, 0, 1, 1, 1, 1, 0, 0, 0, 1, 0]),
   (["\u017A", "\u017A", "97"], [1, 1, 1, 1, 0, 1, 0, 1, 0, 0, 0]),
   (["\u017D", "\u017D", "98"], [1, 1, 1, 1, 0, 1, 0, 0, 0, 1, 0]),
   (["Ć", "Ć", "99"], [1, 0, 1, 1, 1, 0, 1, 1, 1, 1, 0]),
   (["Ɓ", "\u017C", "Ɓ"], [1, 0, 1, 1, 1, 1, 0, 1, 1, 1, 0]),
   (["\u017C", "À", "À"], [1, 1, 1, 0, 1, 0, 1, 1, 1, 1, 0]),
   (["\u0179", "\u0179", "\u0179"], [1, 1, 1, 1, 0, 1, 0, 1, 1, 1, 0]),
   (["START-À", "START-À", "START-À"], [1, 1, 0, 1, 0, 0, 0, 0, 1, 0, 0]),
   (["START-Ɓ", "START-Ɓ", "START-Ɓ"], [1, 1, 0, 1, 0, 0, 1, 0, 0, 0, 0]),
   (["START-Ć", "START-Ć", "START-Ć"], [1, 1, 0, 1, 0, 0, 1, 1, 1, 0, 0])]

/-- The `UnitKind` enum. -/
inductive UnitKind where
  | A
  | B
  | C
deriving DecidableEq

/-- The `Unit` struct from src/sym/code128.rs: a character set and a table
index. -/
structure Unit128 where
  kind : UnitKind
  index : Nat
deriving DecidableEq

/-- The `CharacterSet` enum (None means no set specified yet). -/
inductive CharacterSet where
  | A
  | B
  | C
  | None
deriving DecidableEq

/-- `CharacterSet::from_char`. -/
def CharacterSet.from_char : Char → Except Error CharacterSet
  | 'À' => .ok .A
  | 'Ɓ' => .ok .B
  | 'Ć' => .ok .C
  | _ => .error .Character

/-- `CharacterSet::unit`. -/
def CharacterSet.unit (cs : CharacterSet) (n : Nat) : Except Error Unit128 :=
  match cs with
  | .A => .ok ⟨.A, n⟩
  | .B => .ok ⟨.B, n⟩
  | .C => .ok ⟨.C, n⟩
  | .None => .error .Character

/-- `CharacterSet::index`. -/
def CharacterSet.index : CharacterSet → Except Error Nat
  | .A => .ok 0
  | .B => .ok 1
  | .C => .ok 2
  | .None => .error .Character

/-- `CharacterSet::lookup`: position of the first table row whose column `p`
equals `s` (the `c.0[p]` indexing cannot go out of bounds since `index` only
returns 0, 1 or 2; the `getD` default is never used). -/
def CharacterSet.lookup (cs : CharacterSet) (s : String) : Except Error Unit128 :=
  match cs.index with
  | .error e => .error e
  | .ok p =>
    match Code128.CHARS.findIdx? (fun t => t.1.getD p "" == s) with
    | some i => cs.unit i
    | none => .error .Character

/-- The `Code128` tuple struct. -/
structure Code128 where
  units : List Unit128
deriving DecidableEq

/-- The mutable state of `Code128::parse`'s tokenizer loop: emitted units, the
active character set, and the pending numeric-pair digit. -/
structure Code128.ParseState where
  units : List Unit128
  char_set : CharacterSet
  carry : Option Char
deriving DecidableEq

/-- One iteration of `Code128::parse`'s loop, for character `ch`: a switch
character as the very first unit emits a start unit; a mid-stream switch while
set C has a pending digit is a Character error, otherwise it emits the switch
unit (looked up in the OLD set) and changes set; a digit in set C is stashed
or paired; anything else is looked up in the active set. -/
def Code128.parse_step (st : Code128.ParseState) (ch : Char) :
    Except Error Code128.ParseState :=
  if ch = 'À' ∨ ch = 'Ɓ' ∨ ch = 'Ć' then
    if st.units = [] then
      match CharacterSet.from_char ch with
      | .error e => .error e
      | .ok cs =>
        match cs.lookup ("START-" ++ ch.toString) with
        | .error e => .error e
        | .ok u => .ok ⟨st.units ++ [u], cs, st.carry⟩
    else
      if st.char_set = .C ∧ st.carry.isSome then .error .Character
      else
        match st.char_set.lookup ch.toString with
        | .error e => .error e
        | .ok u =>
          match CharacterSet.from_char ch with
          | .error e => .error e
          | .ok cs => .ok ⟨st.units ++ [u], cs, st.carry⟩
  else if ch.isDigit ∧ st.char_set = .C then
    match st.carry with
    | none => .ok ⟨st.units, st.char_set, some ch⟩
    | some n =>
      match st.char_set.lookup (n.toString ++ ch.toString) with
      | .error e => .error e
      | .ok u => .ok ⟨st.units ++ [u], st.char_set, none⟩
  else
    match st.char_set.lookup ch.toString with
    | .error e => .error e
    | .ok u => .ok ⟨st.units ++ [u], st.char_set, st.carry⟩

/-- The final `match carry` of `Code128::parse`: a still-pending digit at end
of input is a Character error. -/
def Code128.parse_finish (st : Code128.ParseState) : Except Error (List Unit128) :=
  match st.carry with
  | some _ => .error .Character
  | none => .ok st.units

/-- `Code128::parse`: fold the tokenizer step over the input, then check for a
leftover pending digit. -/
def Code128.parse (chars : List Char) : Except Error (List Unit128) :=
  match chars.foldlM Code128.parse_step ⟨[], .None, none⟩ with
  | .error e => .error e
  | .ok st => Code128.parse_finish st

/-- `Code128::new`: inputs shorter than 2 bytes are Error::Length; the chosen
starting character set's control character is prepended (None is a Character
error) and the result tokenized. -/
def Code128.new (data : List Char) (character_set : CharacterSet) :
    Except Error Code128 :=
  if utf8Len data < 2 then .error .Length
  else
    match (match character_set with
      | .A => Except.ok 'À'
      | .B => Except.ok 'Ɓ'
      | .C => Except.ok 'Ć'
      | .None => Except.error Error.Character) with
    | .error e => .error e
    | .ok starting =>
      match Code128.parse (starting :: data) with
      | .error e => .error e
      | .ok units => .ok ⟨units⟩

/-- The Code128 stop sequence. -/
def Code128.STOP : List Nat := [1, 1, 0, 0, 0, 1, 1, 1, 0, 1, 0]

/-- The Code128 termination sequence. -/
def Code128.TERM : List Nat := [1, 1]

/-- `Code128::checksum_value`: positions weighted by `max(1, i)`, reduced
modulo 103 (the `try_into` cannot fail on a value below 103). -/
def Code128.checksum_value (b : Code128) : Nat :=
  (b.units.enum.foldl (fun t iu => t + iu.2.index * max 1 iu.1) 0) % 103

/-- `Code128::unit_encoding`: `CHARS[c.index()].1`; out-of-bounds is a panic
(`none`). -/
def Code128.unit_encoding (u : Unit128) : Option (List Nat) :=
  (Code128.CHARS.get? u.index).map Prod.snd

/-- `Code128::checksum_encoding`. -/
def Code128.checksum_encoding (b : Code128) : Option (List Nat) :=
  Code128.unit_encoding ⟨.A, Code128.checksum_value b⟩

/-- `Code128::payload`. -/
def Code128.payload (b : Code128) : Option (List Nat) :=
  match b.units.mapM Code128.unit_encoding with
  | none => none
  | some slices => some (join_iters slices)

/-- `Code128::encode`: payload, checksum, stop, termination. -/
def Code128.encode (b : Code128) : Option (List Nat) :=
  match Code128.payload b with
  | none => none
  | some p =>
    match Code128.checksum_encoding b with
    | none => none
    | some ce => some (join_slices [p, ce, Code128.STOP, Code128.TERM])

/-- Claim C5: the tokenizer rejects an orphaned numeric-pair digit with a
Character error: in any tokenizer state with active alphabet C and a pending
digit, a mid-stream alphabet-switch control character makes `parse`'s step
return Err(Error::Character), and end of input (the final carry check) returns
Err(Error::Character); concretely, `Code128::new("HELLOĆ12352", A)` (the
repo's own test input with an odd trailing digit) fails with
Err(Error::Character). -/
theorem code128_orphan_digit (st : Code128.ParseState) (d : Char)
    (hC : st.char_set = .C) (hcarry : st.carry = some d) :
    (∀ ch, (ch = 'À' ∨ ch = 'Ɓ' ∨ ch = 'Ć') → st.units ≠ [] →
      Code128.parse_step st ch = .error .Character) ∧
    Code128.parse_finish st = .error .Character ∧
    Code128.new ("HELLOĆ12352".toList) .A = .error .Character := by
  refine ⟨?_, ?_, ?_⟩
  · intro ch hch hne
    unfold Code128.parse_step
    rw [if_pos hch, if_neg hne, if_pos ⟨hC, by rw [hcarry]; rfl⟩]
  · unfold Code128.parse_finish
    rw [hcarry]
  · decide

/-- Witness for claim C5: in the state after `START-Ć` with pending digit '1',
both a switch to alphabet A and end of input yield Err(Error::Character). -/
theorem code128_orphan_digit_witness :
    Code128.parse_step ⟨[⟨.C, 105⟩], .C, some '1'⟩ 'À' = .error .Character ∧
    Code128.parse_finish ⟨[⟨.C, 105⟩], .C, some '1'⟩ = .error .Character := by
  have h := code128_orphan_digit ⟨[⟨.C, 105⟩], .C, some '1'⟩ '1' rfl rfl
  exact ⟨h.1 'À' (Or.inl rfl) (by decide), h.2.1⟩

end Scanning
